import Mathlib

/-!
Verification of the page-interaction controller of `staticpages`
(`src/public/scripts/main.js`) against its natural-language specification.

The script is shallowly embedded: JS strings become `List Char`, DOM
element state becomes explicit records, event handlers become pure state
transformers, and the asynchronous fetch during form submission becomes a
parameter describing the outcome of the network call.
-/

namespace StaticPages

/-! ## JS string primitives -/

/-- JS `\s` / `String.prototype.trim` whitespace class, modelled by
`Char.isWhitespace`. -/
def jsWhitespace (c : Char) : Bool := c.isWhitespace

/-- `String.prototype.trim`: remove whitespace from both ends. -/
def trim (s : List Char) : List Char :=
  ((s.dropWhile jsWhitespace).reverse.dropWhile jsWhitespace).reverse

/-! ## Email validation (`isValidEmail`, main.js line 210-212)

The regex is `^[^\s@]+@[^\s@]+\.[^\s@]+$`.  A character admissible in any
of the three `[^\s@]+` groups: -/

/-- Character class `[^\s@]`: neither whitespace nor `@`. -/
def emailChar (c : Char) : Bool := !jsWhitespace c && !(c == '@')

/-- The part of the regex after the `@`: `[^\s@]+\.[^\s@]+`.  Every
character is in `[^\s@]` (note `.` itself is), and some `.` occurs at an
inner position (neither first nor last). -/
def validDomain (d : List Char) : Bool :=
  d.all emailChar && ((d.drop 1).dropLast).contains '.'

/-- Split a character list at its first `@`, if any. -/
def splitLocalDomain : List Char → Option (List Char × List Char)
  | [] => none
  | c :: rest =>
    if c == '@' then some ([], rest)
    else
      match splitLocalDomain rest with
      | some (l, d) => some (c :: l, d)
      | none => none

/-- `isValidEmail` from main.js: the anchored regex
`^[^\s@]+@[^\s@]+\.[^\s@]+$` holds of the string.  Since the local group
excludes `@`, any match splits the string at its first `@`. -/
def isValidEmail (email : List Char) : Bool :=
  match splitLocalDomain email with
  | some (l, d) => !l.isEmpty && l.all emailChar && validDomain d
  | none => false

/-- The email shape as the spec words it: non-empty local part, `@`,
non-empty domain piece, `.`, non-empty final piece, with no whitespace or
extra `@` anywhere. -/
def EmailShape (email : List Char) : Prop :=
  ∃ l m t : List Char,
    email = l ++ '@' :: (m ++ '.' :: t) ∧
    l ≠ [] ∧ m ≠ [] ∧ t ≠ [] ∧
    l.all emailChar ∧ m.all emailChar ∧ t.all emailChar

/-! ## Input validation (`validateInput`, main.js line 186-208) -/

/-- The `type` attribute of a form input, as far as validation cares. -/
inductive InputType where
  | email
  | other
  deriving DecidableEq, Repr

/-- The slice of a form input's state that `validateInput`,
`showValidationError` and `clearValidationError` read and write: the raw
value, the `required` flag, the `type`, the inline error element next to
the input (if any) and the red-border styling flag. -/
structure Input where
  value : List Char
  required : Bool
  type : InputType
  errorShown : Option (List Char)
  borderError : Bool
  deriving DecidableEq, Repr

/-- Error message literals used by `validateInput`. -/
def requiredMsg : List Char := "This field is required".data

def invalidEmailMsg : List Char := "Please enter a valid email address".data

/-- `clearValidationError`: reset the border style and remove the inline
error element. -/
def clearValidationError (i : Input) : Input :=
  { i with errorShown := none, borderError := false }

/-- `showValidationError`: set the red border and create/update the
inline error element with the message. -/
def showValidationError (i : Input) (msg : List Char) : Input :=
  { i with errorShown := some msg, borderError := true }

/-- `validateInput`: trim the value, clear any existing error, then flag
a required-empty or malformed-email error.  Returns the updated input
state together with the `isValid` result. -/
def validateInput (i : Input) : Input × Bool :=
  let value := trim i.value
  let cleared := clearValidationError i
  if i.required && value.isEmpty then
    (showValidationError cleared requiredMsg, false)
  else if i.type == InputType.email && !value.isEmpty && !isValidEmail value then
    (showValidationError cleared invalidEmailMsg, false)
  else
    (cleared, true)

/-! ## Notifications (`showNotification`, main.js line 288-325) -/

/-- The `type` argument of `showNotification`. -/
inductive NotifType where
  | success
  | error
  deriving DecidableEq, Repr

/-- A notification banner element: its text and its type class. -/
structure Notification where
  message : List Char
  ntype : NotifType
  deriving DecidableEq, Repr

/-- The effect of `document.querySelector` + `remove()` on the list of
notification banners currently in the document (document order): the
first one, if any, is removed. -/
def removeFirstNotification : List Notification → List Notification
  | [] => []
  | _ :: rest => rest

/-- `showNotification`: remove the first existing banner, then append
the new banner to the body. -/
def showNotification (doc : List Notification) (msg : List Char)
    (t : NotifType) : List Notification :=
  removeFirstNotification doc ++ [⟨msg, t⟩]

/-! ## Form submission (`handleFormSubmit`, main.js line 237-286) -/

/-- The submit control: its label and disabled flag. -/
structure SubmitButton where
  textContent : List Char
  disabled : Bool
  deriving DecidableEq, Repr

/-- Outcome of the awaited network call: a parsed response with its
HTTP `ok` flag and JSON `success` flag, or a thrown error (network
failure or unparsable body). -/
inductive FetchOutcome where
  | response (ok : Bool) (success : Bool)
  | networkError
  deriving DecidableEq, Repr

/-- String literals used by `handleFormSubmit` and `showNotification`. -/
def fixErrorsMsg : List Char := "Please fix the errors below".data

def sendingMsg : List Char := "Sending...".data

def sentOkMsg : List Char :=
  "Message sent successfully! We\x27ll get back to you soon.".data

def sendFailedMsg : List Char := "Failed to send message. Please try again.".data

/-- The document state `handleFormSubmit` touches: the form's inputs,
the submit control, and the notification banners. -/
structure FormDoc where
  inputs : List Input
  btn : SubmitButton
  notifs : List Notification
  deriving DecidableEq, Repr

/-- The per-input effect of the submit-time `requiredInputs.forEach`
loop: inputs bearing `[required]` are re-validated, others untouched. -/
def validateRequired (i : Input) : Input × Bool :=
  if i.required then validateInput i else (i, true)

/-- Submit-time validation pass: updated inputs and the `isFormValid`
flag (false as soon as one required input fails). -/
def submitValidate (inputs : List Input) : List Input × Bool :=
  (inputs.map (fun i => (validateRequired i).1),
   inputs.all (fun i => (validateRequired i).2))

/-- `form.reset()`: every control returns to its default value (empty
for this contact form). -/
def formReset (inputs : List Input) : List Input :=
  inputs.map fun i => { i with value := [] }

/-- Outcomes the `try` block treats as success: HTTP `ok` and JSON
`success` both true; anything else throws into the `catch`. -/
def failingOutcome : FetchOutcome → Bool
  | .response ok success => !(ok && success)
  | .networkError => true

/-- `handleFormSubmit`, with the awaited fetch abstracted by its
outcome.  Re-validates required inputs; on failure notifies and stops.
Otherwise saves the button label, swaps in the sending state, performs
the call, branches on the outcome, and in `finally` restores the label
and re-enables the button. -/
def handleFormSubmit (d : FormDoc) (outcome : FetchOutcome) : FormDoc :=
  let v := submitValidate d.inputs
  if !v.2 then
    { d with inputs := v.1
             notifs := showNotification d.notifs fixErrorsMsg NotifType.error }
  else
    let originalText := d.btn.textContent
    let d1 : FormDoc :=
      { inputs := v.1
        btn := { textContent := sendingMsg, disabled := true }
        notifs := d.notifs }
    let d2 : FormDoc :=
      match outcome with
      | .response ok success =>
        if ok && success then
          { d1 with
              notifs := showNotification d1.notifs sentOkMsg NotifType.success
              inputs := formReset d1.inputs }
        else
          { d1 with
              notifs := showNotification d1.notifs sendFailedMsg NotifType.error }
      | .networkError =>
          { d1 with
              notifs := showNotification d1.notifs sendFailedMsg NotifType.error }
    { d2 with btn := { textContent := originalText, disabled := false } }

/-! ## Theme (`setupThemeToggle`/`setTheme`/`toggleTheme`, main.js line 114-137) -/

/-- The theme-relevant state: the `data-theme` attribute on the document
root (`none` when the attribute is absent) and the `theme` key in
localStorage (`none` when the key is absent). -/
structure ThemeState where
  docTheme : Option String
  storage : Option String
  deriving DecidableEq, Repr

/-- `setTheme`: write the attribute and persist the value (the prior
state is not read). -/
def setTheme (_s : ThemeState) (theme : String) : ThemeState :=
  { docTheme := some theme, storage := some theme }

/-- `toggleTheme`: read the current attribute; anything other than
`"dark"` (including absence) toggles to `"dark"`, `"dark"` toggles to
`"light"`; then `setTheme`. -/
def toggleTheme (s : ThemeState) : ThemeState :=
  let newTheme := if s.docTheme = some ("dark") then "light" else "dark"
  setTheme s newTheme

/-- The initial-theme expression
`savedTheme || (systemPrefersDark ? 'dark' : 'light')` — note `||` falls
through both on an absent key and on an empty-string value (both are
falsy). -/
def resolveInitialTheme (saved : Option String) (sysDark : Bool) : String :=
  match saved with
  | some t => if t = "" then (if sysDark then "dark" else "light") else t
  | none => if sysDark then "dark" else "light"

/-- `setupThemeToggle`: a no-op when the toggle element is missing;
otherwise resolves the initial theme from storage and the system
preference and applies it with `setTheme` (which also persists it). -/
def setupThemeToggle (togglePresent : Bool) (sysDark : Bool)
    (s : ThemeState) : ThemeState :=
  if togglePresent then setTheme s (resolveInitialTheme s.storage sysDark) else s

/-! ## Mobile menu (`toggleMobileMenu`, main.js line 77-83) -/

/-- Menu-relevant state: the `active` class on the nav menu and on the
toggle control, and `document.body.style.overflow`. -/
structure MenuState where
  menuActive : Bool
  toggleActive : Bool
  bodyOverflow : String
  deriving DecidableEq, Repr

/-- `toggleMobileMenu` (with the nav menu present): toggle both
`active` classes, then set body overflow to `hidden` exactly when the
menu ends up active. -/
def toggleMobileMenu (s : MenuState) : MenuState :=
  let nowActive := !s.menuActive
  { menuActive := nowActive
    toggleActive := !s.toggleActive
    bodyOverflow := if nowActive then "hidden" else "" }

/-- Whether body scrolling is suppressed. -/
def scrollLocked (s : MenuState) : Bool := s.bodyOverflow == "hidden"

/-- Menu states reachable by the controller: the initial page (menu
closed, no inline overflow) and anything obtained by the toggle handler
(used by the click listener, the Escape key and the smooth-scroll
close). -/
inductive MenuReachable : MenuState → Prop where
  | init : MenuReachable ⟨false, false, ""⟩
  | toggle {s : MenuState} : MenuReachable s → MenuReachable (toggleMobileMenu s)

/-! ## Controller initialization (`init`/`cacheElements`, main.js line 21-49) -/

/-- Which expected elements the current page actually has.  Nav links
are listed with their `href` attribute (`none` when the attribute is
missing). -/
structure Elements where
  loading : Bool
  header : Bool
  navToggle : Bool
  navMenu : Bool
  contactForm : Bool
  themeToggle : Bool
  navLinks : List (Option String)
  deriving DecidableEq, Repr

/-- The `navLinks.forEach` body: `link.getAttribute` on a link without
an `href` yields `null`, and `.startsWith` on it throws; otherwise count
the links that get the smooth-scroll handler. -/
def wireNavLinks : List (Option String) → Except String Nat
  | [] => .ok 0
  | none :: _ => .error ("TypeError: cannot read startsWith of null")
  | some href :: rest =>
    match wireNavLinks rest with
    | .ok n => .ok (if href.startsWith ("#") then n + 1 else n)
    | .error msg => .error msg

/-- What `init` wires up, per feature. -/
structure InitResult where
  menuToggleWired : Bool
  smoothScrollWired : Nat
  headerScrollWired : Bool
  themeWired : Bool
  formWired : Bool
  loadingDismissScheduled : Bool
  deriving DecidableEq, Repr

/-- `setupNavigation`: wire the menu toggle when both its elements are
present, walk the nav links, and wire the header scroll effect when the
header is present. -/
def setupNavigation (els : Elements) : Except String (Bool × Nat × Bool) :=
  match wireNavLinks els.navLinks with
  | .ok n => .ok (els.navToggle && els.navMenu, n, els.header)
  | .error msg => .error msg

/-- `init` (first call): cache elements, then run each setup step in
order.  `setupThemeToggle`, `setupFormHandling` and `hideLoadingScreen`
return early when their element is missing, so only the nav-links walk
can throw. -/
def initController (els : Elements) : Except String InitResult :=
  match setupNavigation els with
  | .error msg => .error msg
  | .ok (menuWired, scrollCount, headerWired) =>
    .ok { menuToggleWired := menuWired
          smoothScrollWired := scrollCount
          headerScrollWired := headerWired
          themeWired := els.themeToggle
          formWired := els.contactForm
          loadingDismissScheduled := els.loading }

/-! ## Whole-page event machine

Post-initialization user interaction, one step per handler
invocation. -/

/-- The combined mutable state of the controller after init. -/
structure PageState where
  theme : ThemeState
  menu : MenuState
  form : FormDoc
  deriving DecidableEq, Repr

/-- One handler invocation. -/
inductive Event where
  | themeToggleClick
  | navToggleClick
  | escapeKey
  | formSubmit (outcome : FetchOutcome)
  | inputBlur (idx : Nat)
  | showNotif (msg : List Char) (t : NotifType)
  | notifExpire (n : Notification)
  deriving DecidableEq, Repr

/-- Apply a function to the element at an index, if in range. -/
def modifyIdx (f : Input → Input) : List Input → Nat → List Input
  | [], _ => []
  | x :: rest, 0 => f x :: rest
  | x :: rest, n + 1 => x :: modifyIdx f rest n

/-- The handler dispatched for each event. -/
def step (p : PageState) : Event → PageState
  | .themeToggleClick => { p with theme := toggleTheme p.theme }
  | .navToggleClick => { p with menu := toggleMobileMenu p.menu }
  | .escapeKey =>
    if p.menu.menuActive then { p with menu := toggleMobileMenu p.menu } else p
  | .formSubmit outcome => { p with form := handleFormSubmit p.form outcome }
  | .inputBlur idx =>
    { p with form :=
        { p.form with inputs := modifyIdx (fun i => (validateInput i).1) p.form.inputs idx } }
  | .showNotif msg t =>
    { p with form := { p.form with notifs := showNotification p.form.notifs msg t } }
  | .notifExpire n =>
    { p with form := { p.form with notifs := p.form.notifs.erase n } }

/-- Run a sequence of events. -/
def runEvents (p : PageState) (events : List Event) : PageState :=
  events.foldl step p

/-! ## Concrete sample states (used to instantiate the theorems) -/

/-- A freshly loaded page: no theme applied yet, menu closed, empty
contact form, no notifications. -/
def samplePage : PageState :=
  { theme := ⟨none, none⟩
    menu := ⟨false, false, ""⟩
    form := { inputs := [], btn := ⟨"Send message".data, false⟩, notifs := [] } }

/-- A filled-in contact form whose required fields all validate. -/
def sampleContactDoc : FormDoc :=
  { inputs := [⟨"Jordan".data, true, InputType.other, none, false⟩,
               ⟨"jordan@example.com".data, true, InputType.email, none, false⟩]
    btn := ⟨"Send message".data, false⟩
    notifs := [] }

/-- Another valid contact form, with a notification already on screen. -/
def sampleContactDoc2 : FormDoc :=
  { inputs := [⟨"Hi there".data, true, InputType.other, none, false⟩]
    btn := ⟨"Send".data, false⟩
    notifs := [⟨fixErrorsMsg, NotifType.error⟩] }

/-! ## Supporting lemmas: the email regex matches exactly the spec's shape -/

/-- Soundness of the first-`@` split: it really decomposes the list. -/
theorem splitLocalDomain_sound (cs : List Char) :
    ∀ l d, splitLocalDomain cs = some (l, d) → cs = l ++ '@' :: d := by
  induction cs with
  | nil => intro l d h; simp [splitLocalDomain] at h
  | cons c rest ih =>
    intro l d h
    rw [splitLocalDomain] at h
    by_cases hc : (c == '@') = true
    · rw [if_pos hc] at h
      simp only [Option.some.injEq, Prod.mk.injEq] at h
      obtain ⟨h1, h2⟩ := h
      subst h1; subst h2
      simp [eq_of_beq hc]
    · rw [if_neg hc] at h
      cases hsplit : splitLocalDomain rest with
      | none => rw [hsplit] at h; simp at h
      | some pair =>
        obtain ⟨l2, d2⟩ := pair
        rw [hsplit] at h
        simp only [Option.some.injEq, Prod.mk.injEq] at h
        obtain ⟨h1, h2⟩ := h
        subst h1; subst h2
        simp [ih _ _ hsplit]

/-- Completeness of the first-`@` split on a decomposition whose local
part avoids `@`. -/
theorem splitLocalDomain_complete (l d : List Char) (hl : '@' ∉ l) :
    splitLocalDomain (l ++ '@' :: d) = some (l, d) := by
  induction l with
  | nil => simp [splitLocalDomain]
  | cons c l ih =>
    rw [List.mem_cons, not_or] at hl
    have hc : ¬((c == '@') = true) := by
      simp only [beq_iff_eq]
      exact fun h0 => hl.1 h0.symm
    rw [List.cons_append, splitLocalDomain, if_neg hc, ih hl.2]

/-- A dot occurs before the last position iff the list splits at a dot
with a non-empty suffix. -/
theorem contains_dot_dropLast_iff (xs : List Char) :
    xs.dropLast.contains '.' = true ↔ ∃ m t, xs = m ++ '.' :: t ∧ t ≠ [] := by
  constructor
  · intro h
    have hmem : '.' ∈ xs.dropLast := by simpa using h
    obtain ⟨m, u, hmu⟩ := List.append_of_mem hmem
    obtain hnil | ⟨ys, b, rfl⟩ := List.eq_nil_or_concat xs
    · subst hnil; simp at hmem
    simp only [List.concat_eq_append, List.dropLast_concat] at hmu
    subst hmu
    exact ⟨m, u ++ [b], by simp, by simp⟩
  · rintro ⟨m, t, rfl, ht⟩
    have h2 : t.dropLast ++ [t.getLast ht] = t := List.dropLast_append_getLast ht
    have h3 : (m ++ '.' :: t).dropLast = m ++ '.' :: t.dropLast := by
      conv_lhs => rw [← h2]
      rw [show m ++ '.' :: (t.dropLast ++ [t.getLast ht]) =
            (m ++ '.' :: t.dropLast) ++ [t.getLast ht] by simp]
      exact List.dropLast_concat
    rw [h3]
    simp

/-- A dot at an inner position iff the list splits at a dot with
non-empty prefix and suffix. -/
theorem innerDot_iff (d : List Char) :
    ((d.drop 1).dropLast).contains '.' = true ↔
      ∃ m t, d = m ++ '.' :: t ∧ m ≠ [] ∧ t ≠ [] := by
  cases d with
  | nil => simp
  | cons c rest =>
    rw [show (c :: rest).drop 1 = rest from rfl, contains_dot_dropLast_iff]
    constructor
    · rintro ⟨m, t, rfl, ht⟩
      exact ⟨c :: m, t, rfl, by simp, ht⟩
    · rintro ⟨m, t, heq, hm, ht⟩
      cases m with
      | nil => exact absurd rfl hm
      | cons c2 m2 =>
        rw [List.cons_append] at heq
        injection heq with h1 h2
        exact ⟨m2, t, h2, ht⟩

/-- The regex `^[^\s@]+@[^\s@]+\.[^\s@]+$` accepts exactly the strings
of the spec's email shape. -/
theorem isValidEmail_iff_emailShape (cs : List Char) :
    isValidEmail cs = true ↔ EmailShape cs := by
  constructor
  · intro h
    rw [isValidEmail] at h
    cases hsplit : splitLocalDomain cs with
    | none => rw [hsplit] at h; simp at h
    | some pair =>
      obtain ⟨l, d⟩ := pair
      rw [hsplit] at h
      simp only [Bool.and_eq_true, Bool.not_eq_true'] at h
      obtain ⟨⟨hne, hall⟩, hdom⟩ := h
      have hcs := splitLocalDomain_sound cs l d hsplit
      rw [validDomain, Bool.and_eq_true] at hdom
      obtain ⟨hdall, hdot⟩ := hdom
      obtain ⟨m, t, rfl, hm, ht⟩ := (innerDot_iff d).1 hdot
      rw [List.all_append, Bool.and_eq_true] at hdall
      obtain ⟨hma, hta0⟩ := hdall
      rw [List.all_cons, Bool.and_eq_true] at hta0
      refine ⟨l, m, t, hcs, ?_, hm, ht, hall, hma, hta0.2⟩
      intro h0; subst h0; simp at hne
  · rintro ⟨l, m, t, rfl, hl, hm, ht, hla, hma, hta⟩
    have hat : '@' ∉ l := by
      intro hmem
      have h1 := List.all_eq_true.1 hla _ hmem
      simp [emailChar] at h1
    rw [isValidEmail, splitLocalDomain_complete l (m ++ '.' :: t) hat]
    simp only [Bool.and_eq_true, Bool.not_eq_true']
    refine ⟨⟨by simpa using hl, hla⟩, ?_⟩
    rw [validDomain, Bool.and_eq_true]
    constructor
    · rw [List.all_append, List.all_cons]
      simp [hma, hta, emailChar]
      decide
    · exact (innerDot_iff _).2 ⟨m, t, rfl, hm, ht⟩

/-! ## Supporting lemmas: validation, notifications, menu, theme, init -/

/-- Trimming an all-whitespace value yields the empty value. -/
theorem trim_eq_nil_of_all_whitespace (l : List Char) (h : l.all jsWhitespace = true) :
    trim l = [] := by
  rw [trim]
  have h1 : l.dropWhile jsWhitespace = [] := by
    rw [List.dropWhile_eq_nil_iff]
    intro x hx
    exact List.all_eq_true.1 h x hx
  rw [h1]
  simp

/-- Validation never changes an input's value. -/
theorem validateInput_value (i : Input) : (validateInput i).1.value = i.value := by
  simp only [validateInput]
  split
  · rfl
  · split <;> rfl

/-- Submit-time per-input validation never changes an input's value. -/
theorem validateRequired_value (i : Input) : (validateRequired i).1.value = i.value := by
  rw [validateRequired]
  split
  · exact validateInput_value i
  · rfl

/-- The submit-time validation pass preserves all field values. -/
theorem submitValidate_values (inputs : List Input) :
    (submitValidate inputs).1.map Input.value = inputs.map Input.value := by
  rw [submitValidate]
  simp only [List.map_map]
  exact List.map_congr_left fun i _ => validateRequired_value i

/-- Removing the first banner shortens the list by one. -/
theorem removeFirstNotification_length (d : List Notification) :
    (removeFirstNotification d).length = d.length - 1 := by
  cases d <;> simp [removeFirstNotification]

/-- `showNotification` leaves exactly one more banner than a removal. -/
theorem showNotification_length (d : List Notification) (msg : List Char) (t : NotifType) :
    (showNotification d msg t).length = d.length - 1 + 1 := by
  simp [showNotification, removeFirstNotification_length]

/-- Every branch of `handleFormSubmit` shows exactly one banner. -/
theorem handleFormSubmit_notifs_length (d : FormDoc) (o : FetchOutcome) :
    (handleFormSubmit d o).notifs.length = d.notifs.length - 1 + 1 := by
  rw [handleFormSubmit]
  split
  · simp [showNotification_length]
  · split
    · split
      · simp [showNotification_length]
      · simp [showNotification_length]
    · simp [showNotification_length]

/-- Every handler preserves the at-most-one-banner bound. -/
theorem step_notifs_length_le (p : PageState) (ev : Event)
    (h : p.form.notifs.length ≤ 1) : (step p ev).form.notifs.length ≤ 1 := by
  cases ev with
  | themeToggleClick => exact h
  | navToggleClick => exact h
  | escapeKey => by_cases hm : p.menu.menuActive <;> simp [step, hm] <;> exact h
  | formSubmit o =>
    have := handleFormSubmit_notifs_length p.form o
    simp only [step]
    omega
  | inputBlur idx => exact h
  | showNotif msg t =>
    have := showNotification_length p.form.notifs msg t
    simp only [step]
    omega
  | notifExpire n =>
    have := (p.form.notifs.erase_sublist n).length_le
    simp only [step]
    omega

/-- After a menu toggle, scroll is locked iff the menu was inactive. -/
theorem toggleMobileMenu_lock (s : MenuState) :
    scrollLocked (toggleMobileMenu s) = !s.menuActive := by
  by_cases h : s.menuActive <;> simp [toggleMobileMenu, scrollLocked, h]

/-- No handler other than the theme toggle touches the persisted theme. -/
theorem runEvents_theme_frame (events : List Event) :
    ∀ p : PageState, Event.themeToggleClick ∉ events →
      (runEvents p events).theme.storage = p.theme.storage := by
  induction events with
  | nil => intro p _; rfl
  | cons ev rest ih =>
    intro p hnt
    rw [List.mem_cons, not_or] at hnt
    have hstep : (step p ev).theme = p.theme := by
      cases ev with
      | themeToggleClick => exact absurd rfl hnt.1
      | navToggleClick => rfl
      | escapeKey => by_cases h : p.menu.menuActive <;> simp [step, h]
      | formSubmit o => rfl
      | inputBlur idx => rfl
      | showNotif m t => rfl
      | notifExpire n => rfl
    rw [runEvents, List.foldl_cons]
    rw [show List.foldl step (step p ev) rest = runEvents (step p ev) rest from rfl]
    rw [ih _ hnt.2, hstep]

/-- The nav-links walk succeeds whenever every link has an `href`. -/
theorem wireNavLinks_ok (links : List (Option String)) (h : ∀ x ∈ links, x ≠ none) :
    ∃ n, wireNavLinks links = .ok n := by
  induction links with
  | nil => exact ⟨0, rfl⟩
  | cons x rest ih =>
    cases x with
    | none => exact absurd rfl (h none (by simp))
    | some href =>
      obtain ⟨n, hn⟩ := ih (fun y hy => h y (List.mem_cons_of_mem _ hy))
      exact ⟨if href.startsWith ("#") then n + 1 else n, by simp [wireNavLinks, hn]⟩

/-! ## Claim theorems -/

/-- C1: Validation rules of `validateInput`.  A required field whose
trimmed value is empty fails with the required-field message; a
non-empty value on an email-typed field that does not have the simple
email shape (non-empty local part, `@`, non-empty domain, `.`,
non-empty TLD, no whitespace or extra `@` in any part) fails with the
invalid-email message; a non-empty value of that shape on an email
field validates successfully and leaves no error shown (any previously
shown error is removed). -/
theorem contactFormValidationRules (i : Input) :
    (i.required = true → trim i.value = [] →
      (validateInput i).2 = false ∧
      (validateInput i).1.errorShown = some requiredMsg) ∧
    (i.type = InputType.email → trim i.value ≠ [] → ¬ EmailShape (trim i.value) →
      (validateInput i).2 = false ∧
      (validateInput i).1.errorShown = some invalidEmailMsg) ∧
    (i.type = InputType.email → trim i.value ≠ [] → EmailShape (trim i.value) →
      (validateInput i).2 = true ∧
      (validateInput i).1.errorShown = none) := by
  refine ⟨?_, ?_, ?_⟩
  · intro hreq hempty
    simp [validateInput, hreq, hempty, showValidationError, clearValidationError]
  · intro htype hne hshape
    have hv : isValidEmail (trim i.value) = false := by
      rw [← Bool.not_eq_true]
      exact fun h0 => hshape ((isValidEmail_iff_emailShape _).1 h0)
    have hie : (trim i.value).isEmpty = false := by
      rw [List.isEmpty_eq_false]
      exact hne
    simp [validateInput, htype, hie, hv, showValidationError, clearValidationError]
  · intro htype hne hshape
    have hv : isValidEmail (trim i.value) = true :=
      (isValidEmail_iff_emailShape _).2 hshape
    have hie : (trim i.value).isEmpty = false := by
      rw [List.isEmpty_eq_false]
      exact hne
    simp [validateInput, htype, hie, hv, showValidationError, clearValidationError]

/-- C1 witness: the three validation rules at concrete inputs — a
required whitespace-only field, a malformed email, and a well-formed
email with a stale error. -/
theorem contactFormValidationRules_witness :
    ((validateInput ⟨"   ".data, true, InputType.other, none, false⟩).2 = false ∧
      (validateInput ⟨"   ".data, true, InputType.other, none, false⟩).1.errorShown =
        some requiredMsg) ∧
    ((validateInput ⟨"not-an-email".data, false, InputType.email, none, false⟩).2 = false ∧
      (validateInput ⟨"not-an-email".data, false, InputType.email, none, false⟩).1.errorShown =
        some invalidEmailMsg) ∧
    ((validateInput ⟨"user@example.com".data, true, InputType.email,
        some invalidEmailMsg, true⟩).2 = true ∧
      (validateInput ⟨"user@example.com".data, true, InputType.email,
        some invalidEmailMsg, true⟩).1.errorShown = none) := by
  refine ⟨(contactFormValidationRules _).1 rfl (by decide),
    (contactFormValidationRules _).2.1 rfl (by decide) ?_,
    (contactFormValidationRules _).2.2 rfl (by decide) ?_⟩
  · intro h0
    exact absurd ((isValidEmail_iff_emailShape _).2 h0) (by decide)
  · exact (isValidEmail_iff_emailShape _).1 (by decide)

/-- C2: When all required fields pass, a failing relay response or a
network error leaves every field value unchanged and shows the failure
notification; and in every outcome the submit control ends with its
original label and re-enabled. -/
theorem submitFailureHandling (d : FormDoc) (o : FetchOutcome)
    (hv : (submitValidate d.inputs).2 = true) :
    (failingOutcome o = true →
      (handleFormSubmit d o).inputs.map Input.value = d.inputs.map Input.value ∧
      (handleFormSubmit d o).notifs.getLast? =
        some ⟨sendFailedMsg, NotifType.error⟩) ∧
    (handleFormSubmit d o).btn.textContent = d.btn.textContent ∧
    (handleFormSubmit d o).btn.disabled = false := by
  have hvals := submitValidate_values d.inputs
  cases o with
  | networkError =>
    refine ⟨fun _ => ⟨?_, ?_⟩, ?_, ?_⟩ <;>
      simp [handleFormSubmit, hv, hvals, showNotification]
  | response ok success =>
    by_cases h2 : (ok && success) = true
    · refine ⟨fun hfail => ?_, ?_, ?_⟩
      · rw [failingOutcome, h2] at hfail; simp at hfail
      · simp [handleFormSubmit, hv, h2]
      · simp [handleFormSubmit, hv, h2]
    · refine ⟨fun _ => ⟨?_, ?_⟩, ?_, ?_⟩ <;>
      simp [handleFormSubmit, hv, h2, hvals, showNotification]

/-- C2 witness: submitting a valid form against a network error keeps
the field values, shows the failure banner, and restores the button. -/
theorem submitFailureHandling_witness :
    (failingOutcome FetchOutcome.networkError = true →
      (handleFormSubmit sampleContactDoc FetchOutcome.networkError).inputs.map Input.value =
        sampleContactDoc.inputs.map Input.value ∧
      (handleFormSubmit sampleContactDoc FetchOutcome.networkError).notifs.getLast? =
        some ⟨sendFailedMsg, NotifType.error⟩) ∧
    (handleFormSubmit sampleContactDoc FetchOutcome.networkError).btn.textContent =
      sampleContactDoc.btn.textContent ∧
    (handleFormSubmit sampleContactDoc FetchOutcome.networkError).btn.disabled = false :=
  submitFailureHandling sampleContactDoc FetchOutcome.networkError (by decide)

/-- C3: Starting from any document with at most one notification banner
(in particular a fresh page), after any sequence of handler invocations
— including rapid successions of notification shows — at most one
banner exists, because each show removes an existing banner first. -/
theorem atMostOneNotification (p : PageState) (events : List Event)
    (h : p.form.notifs.length ≤ 1) :
    (runEvents p events).form.notifs.length ≤ 1 := by
  induction events generalizing p with
  | nil => exact h
  | cons ev rest ih =>
    rw [runEvents, List.foldl_cons]
    exact ih _ (step_notifs_length_le p ev h)

/-- C3 witness: three shows in rapid succession on a fresh page leave
at most one banner. -/
theorem atMostOneNotification_witness :
    (runEvents samplePage
      [Event.showNotif sentOkMsg NotifType.success,
       Event.showNotif sendFailedMsg NotifType.error,
       Event.showNotif fixErrorsMsg NotifType.error]).form.notifs.length ≤ 1 :=
  atMostOneNotification samplePage _ (by decide)

/-- C4 counterexample: from the starting state with document attribute
`light` but persisted value `dark`, toggling twice does not restore the
persisted value (it ends as `light`), refuting the round trip over all
starting states. -/
theorem themeToggleRoundTrip_counterexample :
    (toggleTheme (toggleTheme ⟨some ("light"), some ("dark")⟩)).storage ≠
      (⟨some ("light"), some ("dark")⟩ : ThemeState).storage := by decide

/-- C4 (amended): for every starting state whose document attribute is
`light` or `dark` and whose persisted value agrees with it, toggling
the theme twice restores both the attribute and the persisted value. -/
theorem themeToggleRoundTrip (s : ThemeState)
    (h1 : s.docTheme = some ("light") ∨ s.docTheme = some ("dark"))
    (h2 : s.storage = s.docTheme) :
    toggleTheme (toggleTheme s) = s := by
  obtain ⟨d, st⟩ := s
  simp only at h1 h2
  subst h2
  rcases h1 with h | h <;> subst h <;> decide

/-- C4 witness: the round trip at the consistent `light` state. -/
theorem themeToggleRoundTrip_witness :
    toggleTheme (toggleTheme ⟨some ("light"), some ("light")⟩) =
      (⟨some ("light"), some ("light")⟩ : ThemeState) :=
  themeToggleRoundTrip _ (Or.inl rfl) rfl

/-- C5: In every reachable menu state, the menu is active exactly when
body scroll is locked; and opening then closing the menu from any
reachable pre-open state leaves the scroll-lock state as it was. -/
theorem menuScrollLockInvariant :
    (∀ s : MenuState, MenuReachable s → (s.menuActive = true ↔ scrollLocked s = true)) ∧
    (∀ s : MenuState, MenuReachable s → s.menuActive = false →
      scrollLocked (toggleMobileMenu (toggleMobileMenu s)) = scrollLocked s) := by
  have inv : ∀ s, MenuReachable s → (s.menuActive = true ↔ scrollLocked s = true) := by
    intro s hs
    cases hs with
    | init => simp [scrollLocked]
    | toggle hprev =>
      rw [toggleMobileMenu_lock]
      simp [toggleMobileMenu]
  refine ⟨inv, fun s hs hin => ?_⟩
  have hlock : scrollLocked s = false := by
    cases hl : scrollLocked s
    · rfl
    · exact absurd ((inv s hs).2 hl) (by simp [hin])
  rw [toggleMobileMenu_lock, hlock]
  simp [toggleMobileMenu, hin]

/-- C5 witness: the invariant and the open/close round trip at the
initial menu state. -/
theorem menuScrollLockInvariant_witness :
    ((⟨false, false, ""⟩ : MenuState).menuActive = true ↔
      scrollLocked ⟨false, false, ""⟩ = true) ∧
    scrollLocked (toggleMobileMenu (toggleMobileMenu ⟨false, false, ""⟩)) =
      scrollLocked ⟨false, false, ""⟩ :=
  ⟨menuScrollLockInvariant.1 _ MenuReachable.init,
   menuScrollLockInvariant.2 _ MenuReachable.init rfl⟩

/-- C6 counterexample: with no toggle activated at all, initialization
itself (theme toggle element present, no saved value, system prefers
light) writes the persisted theme key, which the claim denies. -/
theorem noInitPersistWrite_counterexample :
    (setupThemeToggle true false ⟨none, none⟩).storage ≠
      (⟨none, none⟩ : ThemeState).storage := by decide

/-- C6 (amended): the persisted theme value is written by controller
initialization — which persists exactly the resolved initial theme when
the toggle element is present and writes nothing when it is absent —
and thereafter only by explicit theme toggles: any sequence of handler
invocations without a theme-toggle click leaves the persisted value
unchanged. -/
theorem persistedThemeWrites (sysDark : Bool) (s : ThemeState) (p : PageState)
    (events : List Event) (hnt : Event.themeToggleClick ∉ events) :
    (setupThemeToggle true sysDark s).storage =
      some (resolveInitialTheme s.storage sysDark) ∧
    (setupThemeToggle false sysDark s).storage = s.storage ∧
    (runEvents p events).theme.storage = p.theme.storage :=
  ⟨by simp [setupThemeToggle, setTheme], by simp [setupThemeToggle],
   runEvents_theme_frame events p hnt⟩

/-- C6 witness: a concrete toggle-free run (one menu click) leaves the
persisted value untouched, while initialization writes the resolved
theme. -/
theorem persistedThemeWrites_witness :
    (setupThemeToggle true false ⟨none, none⟩).storage =
      some (resolveInitialTheme (⟨none, none⟩ : ThemeState).storage false) ∧
    (setupThemeToggle false false ⟨none, none⟩).storage =
      (⟨none, none⟩ : ThemeState).storage ∧
    (runEvents samplePage [Event.navToggleClick]).theme.storage =
      samplePage.theme.storage :=
  persistedThemeWrites false ⟨none, none⟩ samplePage [Event.navToggleClick] (by decide)

/-- C7: With the persisted value absent or one of `light`/`dark`, the
theme applied at startup is the resolved initial theme, the resolution
prefers the persisted value and otherwise follows the system dark-mode
preference with `light` as final fallback, and the result is exactly
`light` or `dark`. -/
theorem initialThemeResolution (sysDark : Bool) (s : ThemeState)
    (h : s.storage = none ∨ s.storage = some ("light") ∨ s.storage = some ("dark")) :
    (setupThemeToggle true sysDark s).docTheme =
      some (resolveInitialTheme s.storage sysDark) ∧
    (∀ t, s.storage = some t → resolveInitialTheme s.storage sysDark = t) ∧
    (s.storage = none →
      resolveInitialTheme s.storage sysDark = if sysDark then "dark" else "light") ∧
    (resolveInitialTheme s.storage sysDark = "light" ∨
      resolveInitialTheme s.storage sysDark = "dark") := by
  refine ⟨by simp [setupThemeToggle, setTheme], ?_, ?_, ?_⟩
  · intro t ht
    rw [ht]
    rcases h with h | h | h
    · rw [h] at ht; exact absurd ht (by simp)
    · rw [h] at ht; injection ht with h2; rw [← h2]; simp [resolveInitialTheme]
    · rw [h] at ht; injection ht with h2; rw [← h2]; simp [resolveInitialTheme]
  · intro h0; rw [h0]; cases sysDark <;> rfl
  · rcases h with h | h | h <;> rw [h] <;> cases sysDark <;> simp [resolveInitialTheme]

/-- C7 witness: with persisted value `dark` and a light system
preference, the resolved theme is one of the two supported values. -/
theorem initialThemeResolution_witness :
    resolveInitialTheme (some ("dark")) false = "light" ∨
      resolveInitialTheme (some ("dark")) false = "dark" :=
  (initialThemeResolution false ⟨none, some ("dark")⟩ (Or.inr (Or.inr rfl))).2.2.2

/-- C8: For every combination of present/absent page elements (with
any present nav links carrying an `href`), controller initialization
completes without throwing, and each feature is wired exactly when its
elements are present — one missing element never blocks another
feature. -/
theorem initNeverThrows (els : Elements) (h : ∀ x ∈ els.navLinks, x ≠ none) :
    ∃ r : InitResult, initController els = .ok r ∧
      r.menuToggleWired = (els.navToggle && els.navMenu) ∧
      r.headerScrollWired = els.header ∧
      r.themeWired = els.themeToggle ∧
      r.formWired = els.contactForm ∧
      r.loadingDismissScheduled = els.loading := by
  obtain ⟨n, hn⟩ := wireNavLinks_ok els.navLinks h
  refine ⟨⟨els.navToggle && els.navMenu, n, els.header, els.themeToggle,
    els.contactForm, els.loading⟩, ?_, rfl, rfl, rfl, rfl, rfl⟩
  simp [initController, setupNavigation, hn]

/-- C8 witness: initialization completes with every element absent. -/
theorem initNeverThrows_witness :
    ∃ r : InitResult,
      initController ⟨false, false, false, false, false, false, []⟩ = .ok r ∧
      r.menuToggleWired = (false && false) ∧
      r.headerScrollWired = false ∧
      r.themeWired = false ∧
      r.formWired = false ∧
      r.loadingDismissScheduled = false :=
  initNeverThrows ⟨false, false, false, false, false, false, []⟩ (by simp)

/-- C9: A required input whose value is all whitespace is treated as
empty — it is trimmed before checking and reported with the
required-field error; a non-required email input whose value is empty
or all whitespace validates successfully with no error. -/
theorem whitespaceOnlyValidation (i : Input) :
    (i.required = true → i.value.all jsWhitespace = true →
      (validateInput i).2 = false ∧
      (validateInput i).1.errorShown = some requiredMsg) ∧
    (i.required = false → i.type = InputType.email → i.value.all jsWhitespace = true →
      (validateInput i).2 = true ∧
      (validateInput i).1.errorShown = none) := by
  constructor
  · intro hreq hws
    simp [validateInput, hreq, trim_eq_nil_of_all_whitespace _ hws,
      showValidationError, clearValidationError]
  · intro hreq _htype hws
    simp [validateInput, hreq, trim_eq_nil_of_all_whitespace _ hws,
      clearValidationError]

/-- C9 witness: a whitespace-only required field fails as required; a
whitespace-only optional email field validates and its stale error is
removed. -/
theorem whitespaceOnlyValidation_witness :
    ((validateInput ⟨"  ".data, true, InputType.other, none, false⟩).2 = false ∧
      (validateInput ⟨"  ".data, true, InputType.other, none, false⟩).1.errorShown =
        some requiredMsg) ∧
    ((validateInput ⟨" ".data, false, InputType.email, some invalidEmailMsg, true⟩).2 = true ∧
      (validateInput ⟨" ".data, false, InputType.email,
        some invalidEmailMsg, true⟩).1.errorShown = none) :=
  ⟨(whitespaceOnlyValidation _).1 rfl (by decide),
   (whitespaceOnlyValidation _).2 rfl rfl (by decide)⟩

/-- C10: An HTTP-success response whose JSON success flag is not true
is treated as a failure: the failure notification is shown and the
field values are not cleared. -/
theorem httpOkJsonFailure (d : FormDoc)
    (hv : (submitValidate d.inputs).2 = true) :
    (handleFormSubmit d (FetchOutcome.response true false)).notifs.getLast? =
      some ⟨sendFailedMsg, NotifType.error⟩ ∧
    (handleFormSubmit d (FetchOutcome.response true false)).inputs.map Input.value =
      d.inputs.map Input.value := by
  constructor <;>
    simp [handleFormSubmit, hv, submitValidate_values, showNotification]

/-- C10 witness: a valid form submitted against an HTTP-200 response
with a false success flag takes the failure path. -/
theorem httpOkJsonFailure_witness :
    (handleFormSubmit sampleContactDoc2 (FetchOutcome.response true false)).notifs.getLast? =
      some ⟨sendFailedMsg, NotifType.error⟩ ∧
    (handleFormSubmit sampleContactDoc2 (FetchOutcome.response true false)).inputs.map
        Input.value =
      sampleContactDoc2.inputs.map Input.value :=
  httpOkJsonFailure sampleContactDoc2 (by decide)

end StaticPages
